import Mathlib

/-!
Shallow embedding of "DAS Frontend/src-tauri/src/main.rs" (the Window Chrome
Controller): the three Tauri command handlers (handle_search, toggle_theme,
open_settings) and the setup closure of main.

Modelling decisions, all read off the Rust source:
* tauri::Theme is a non-exhaustive enum; the source pattern-matches it with a
  wildcard arm in two places, so any variant beyond Light/Dark is one abstract
  value Other.
* window.theme() returns a Result that the source immediately defaults with
  unwrap_or(Light); it is modelled as an Option Theme field of the window
  state (none = the query failed / no theme reported).
* Each mutating host call (set_theme, set_background_color,
  create_overlay_titlebar) can succeed or fail; which calls succeed during one
  operation is an explicit Bool-record argument.
* window.set_theme(..).unwrap() panics when set_theme fails: a command run
  therefore ends in ok, err or panicked (CmdResult). The Rust return type is
  Result of String and String, and its Err branch is never constructed.
* The result of set_background_color is discarded with a let-underscore, as is
  the result of create_overlay_titlebar; a failed call leaves the window field
  unchanged and the operation continues.
* println! logging and the debug-build devtools call have no modelled effect.
-/

/-- tauri::Theme. The source treats it as Light, Dark, or anything else
(the wildcard arms at main.rs:27 and main.rs:33/61). -/
inductive Theme
  | Light
  | Dark
  | Other
deriving DecidableEq

/-- tauri::webview::Color(r, g, b, a): four byte channels. -/
structure Color where
  r : Nat
  g : Nat
  b : Nat
  a : Nat
deriving DecidableEq

/-- Observable state of the main window: the theme its theme() query reports,
its background color (none = never set), and whether the overlay title bar
has been created. -/
structure Window where
  themeQuery : Option Theme
  bg : Option Color
  overlayTitlebar : Bool
deriving DecidableEq

/-- Which of the two host-framework mutations made by toggle_theme succeed. -/
structure ToggleHost where
  setThemeOk : Bool
  setBgOk : Bool

/-- Which of the two host-framework mutations made by the setup closure
succeed. -/
structure SetupHost where
  overlayOk : Bool
  setBgOk : Bool

/-- Outcome of one command invocation: the Rust Ok branch, the Rust Err
branch, or a panic (an unwrap on a failed call). -/
inductive CmdResult (α : Type)
  | ok (a : α)
  | err (e : String)
  | panicked
deriving DecidableEq

/-- The theme transition match in toggle_theme (main.rs:24-28): Light to Dark,
Dark to Light, wildcard to Light. -/
def toggleMap : Theme → Theme
  | .Light => .Dark
  | .Dark => .Light
  | .Other => .Light

/-- The color match written identically in toggle_theme (main.rs:31-34) and in
the setup closure (main.rs:59-62): Light to (255,255,255,255), wildcard to
(32,32,32,255). -/
def themeColor : Theme → Color
  | .Light => ⟨255, 255, 255, 255⟩
  | _ => ⟨32, 32, 32, 255⟩

/-- Debug rendering of a theme variant, used by the format string
"Theme toggled to " in toggle_theme. toggleMap never yields Other, so the
Other line is unreachable from toggle_theme. -/
def themeName : Theme → String
  | .Light => "Light"
  | .Dark => "Dark"
  | .Other => "Other"

/-- handle_search (main.rs:12-16): logs and returns the acknowledgment string
echoing the query. The window argument is unused in the source. -/
def handle_search (query : String) (_window : Window) : CmdResult String :=
  .ok ("Searching for: " ++ query)

/-- toggle_theme (main.rs:20-37): read the current theme defaulting to Light,
flip it, set it with unwrap (panic when the host refuses), compute the color
for the new theme, apply it discarding the result, return the Ok description.
Returns the command outcome together with the window state afterwards. -/
def toggle_theme (host : ToggleHost) (window : Window) : CmdResult String × Window :=
  let current_theme := window.themeQuery.getD Theme.Light
  let new_theme := toggleMap current_theme
  if host.setThemeOk then
    let window := { window with themeQuery := some new_theme }
    let color := themeColor new_theme
    let window := if host.setBgOk then { window with bg := some color } else window
    (.ok ("Theme toggled to " ++ themeName new_theme), window)
  else
    (.panicked, window)

/-- open_settings (main.rs:41-45): logs and returns the fixed acknowledgment.
The window argument is unused in the source. -/
def open_settings (_window : Window) : CmdResult String :=
  .ok "Settings opened"

/-- The setup closure of main (main.rs:55-69): create the overlay title bar
discarding the result, resolve the reported theme (defaulting to Light) to a
color through the same match as toggle_theme, apply it discarding the result.
The debug-build devtools call touches none of the modelled state. -/
def setup (host : SetupHost) (window : Window) : Window :=
  let window := if host.overlayOk then { window with overlayTitlebar := true } else window
  let color := themeColor (window.themeQuery.getD Theme.Light)
  if host.setBgOk then { window with bg := some color } else window

/-- C1: toggle_theme with both host mutations succeeding, from Light, sets the
theme to Dark and applies background color (32,32,32,255); from Dark it sets
Light and applies (255,255,255,255); from any other theme value it sets Light
and applies (255,255,255,255). -/
theorem toggle_transitions_and_colors (bg : Option Color) (ov : Bool) :
    toggle_theme ⟨true, true⟩ ⟨some .Light, bg, ov⟩
      = (.ok "Theme toggled to Dark", ⟨some .Dark, some ⟨32, 32, 32, 255⟩, ov⟩) ∧
    toggle_theme ⟨true, true⟩ ⟨some .Dark, bg, ov⟩
      = (.ok "Theme toggled to Light", ⟨some .Light, some ⟨255, 255, 255, 255⟩, ov⟩) ∧
    toggle_theme ⟨true, true⟩ ⟨some .Other, bg, ov⟩
      = (.ok "Theme toggled to Light", ⟨some .Light, some ⟨255, 255, 255, 255⟩, ov⟩) := by
  refine ⟨rfl, rfl, rfl⟩

/-- C2 counterexample: with a window that cannot be mutated (set_theme fails),
toggle_theme does not return a descriptive failure value: it panics (the
unwrap at main.rs:29), leaving the window unchanged. -/
theorem toggle_failure_panics_cex :
    toggle_theme ⟨false, true⟩ ⟨some .Light, some ⟨255, 255, 255, 255⟩, true⟩
      = (.panicked, ⟨some .Light, some ⟨255, 255, 255, 255⟩, true⟩) := by
  decide

/-- C2 amended: when the host refuses the theme mutation toggle_theme panics
rather than returning an error value; otherwise it returns the human-readable
description of the new theme state (regardless of whether the background-color
mutation succeeds). The Err branch is never taken. -/
theorem toggle_result_characterization (host : ToggleHost) (window : Window) :
    (toggle_theme host window).1
      = (if host.setThemeOk
          then .ok ("Theme toggled to "
                      ++ themeName (toggleMap (window.themeQuery.getD .Light)))
          else .panicked) := by
  rcases host with ⟨st, sb⟩
  cases st <;> cases sb <;> rfl

/-- C3 counterexample: when set_background_color fails during a toggle (its
result is discarded at main.rs:35), the completed operation leaves a stale
color: the displayed background is not the mapping-table value for the
window's current theme. -/
theorem stale_color_after_toggle_cex :
    ¬ ((toggle_theme ⟨true, false⟩ ⟨some .Light, some ⟨255, 255, 255, 255⟩, true⟩).2.bg
        = some (themeColor
            ((toggle_theme ⟨true, false⟩
                ⟨some .Light, some ⟨255, 255, 255, 255⟩, true⟩).2.themeQuery.getD .Light))) := by
  decide

/-- C3 amended: after any operation whose background-color application
succeeds (toggle_theme or the setup closure), the window's background color
equals the fixed mapping-table value for the window's current theme. -/
theorem color_invariant_on_success (window : Window) (ov : Bool) :
    ((toggle_theme ⟨true, true⟩ window).2.bg
        = some (themeColor
            ((toggle_theme ⟨true, true⟩ window).2.themeQuery.getD .Light))) ∧
    ((setup ⟨ov, true⟩ window).bg
        = some (themeColor ((setup ⟨ov, true⟩ window).themeQuery.getD .Light))) := by
  refine ⟨rfl, ?_⟩
  cases ov <;> rfl

/-- C4 counterexample: at startup with a host-reported theme value other than
Light or Dark, the setup closure applies (32,32,32,255) (the wildcard arm at
main.rs:61), not Light's mapping (255,255,255,255). -/
theorem setup_other_theme_cex :
    (setup ⟨true, true⟩ ⟨some .Other, none, false⟩).bg = some ⟨32, 32, 32, 255⟩ ∧
    (⟨32, 32, 32, 255⟩ : Color) ≠ ⟨255, 255, 255, 255⟩ := by
  decide

/-- C4 amended: at startup (host calls succeeding), a missing/system-default
theme report resolves to Light's mapping (255,255,255,255); an unrecognized
theme value resolves to the dark color (32,32,32,255); and a Dark report
yields (32,32,32,255) with the overlay title bar present. -/
theorem setup_theme_resolution (bg : Option Color) (ov : Bool) :
    (setup ⟨true, true⟩ ⟨none, bg, ov⟩).bg = some ⟨255, 255, 255, 255⟩ ∧
    (setup ⟨true, true⟩ ⟨some .Other, bg, ov⟩).bg = some ⟨32, 32, 32, 255⟩ ∧
    (setup ⟨true, true⟩ ⟨some .Dark, bg, ov⟩).bg = some ⟨32, 32, 32, 255⟩ ∧
    (setup ⟨true, true⟩ ⟨some .Dark, bg, ov⟩).overlayTitlebar = true := by
  refine ⟨rfl, rfl, rfl, rfl⟩

/-- C5 counterexample: a run in which the background-color mutation fails:
toggle_theme reports success (not failure) and the window is not left in its
prior observable state (the theme changed). -/
theorem toggle_partial_failure_cex :
    (toggle_theme ⟨true, false⟩ ⟨some .Light, some ⟨255, 255, 255, 255⟩, true⟩).1
      = .ok "Theme toggled to Dark" ∧
    (toggle_theme ⟨true, false⟩ ⟨some .Light, some ⟨255, 255, 255, 255⟩, true⟩).2
      ≠ ⟨some .Light, some ⟨255, 255, 255, 255⟩, true⟩ := by
  decide

/-- C5 amended: when set_theme fails, toggle_theme panics with the window
unchanged (no failure value is returned); when set_theme succeeds but
set_background_color fails, toggle_theme reports success and the window is
left partially updated: its theme has changed while its background color has
not. -/
theorem toggle_failure_modes (window : Window) (b : Bool) :
    toggle_theme ⟨false, b⟩ window = (.panicked, window) ∧
    (toggle_theme ⟨true, false⟩ window).1
      = .ok ("Theme toggled to " ++ themeName (toggleMap (window.themeQuery.getD .Light))) ∧
    (toggle_theme ⟨true, false⟩ window).2
      = { window with themeQuery := some (toggleMap (window.themeQuery.getD .Light)) } := by
  refine ⟨rfl, rfl, rfl⟩

/-- C6: the toggle transition is an involution on Light and Dark:
toggling twice returns the original theme. -/
theorem toggle_round_trip :
    toggleMap (toggleMap .Light) = .Light ∧ toggleMap (toggleMap .Dark) = .Dark := by
  decide

/-- C7: handle_search returns an acknowledgment echoing its query for every
input: the returned string contains the query; for "abc" the result contains
"abc"; for "" the result is exactly the empty-query acknowledgment
"Searching for: " with nothing after the marker. -/
theorem search_echoes_query (q : String) (w : Window) :
    (∃ p, handle_search q w = .ok (p ++ q)) ∧
    (∃ p, handle_search "abc" w = .ok (p ++ "abc")) ∧
    handle_search "" w = .ok "Searching for: " := by
  refine ⟨⟨"Searching for: ", rfl⟩, ⟨"Searching for: ", rfl⟩, ?_⟩
  show CmdResult.ok ("Searching for: " ++ "") = CmdResult.ok "Searching for: "
  rw [String.append_empty]

/-- C8: open_settings returns the same fixed acknowledgment string on every
call, whatever the window state. -/
theorem settings_fixed_ack (w : Window) : open_settings w = .ok "Settings opened" :=
  rfl

/-- C9: toggle_theme discards the result of set_background_color: whenever the
theme mutation succeeds it returns the Ok "Theme toggled to ..." description,
whether or not the color application succeeded. -/
theorem toggle_ignores_color_failure (window : Window) (b : Bool) :
    (toggle_theme ⟨true, b⟩ window).1
      = .ok ("Theme toggled to " ++ themeName (toggleMap (window.themeQuery.getD .Light))) := by
  cases b <;> rfl

/-- C10: handle_search and open_settings never take their Err branch: for
every query and window state they return the Ok acknowledgment. -/
theorem stubs_never_err (q : String) (w : Window) :
    handle_search q w = .ok ("Searching for: " ++ q) ∧
    open_settings w = .ok "Settings opened" ∧
    (∀ e, handle_search q w ≠ CmdResult.err e) ∧
    (∀ e, open_settings w ≠ CmdResult.err e) :=
  ⟨rfl, rfl, fun _ h => CmdResult.noConfusion h, fun _ h => CmdResult.noConfusion h⟩
